import Mathlib

/-!
Verification development for the TipTap word-processor pagination engine.

The repository has two pagination pipelines:
* the live pagination plugin in `Tiptap.jsx` (`estimateNodeHeight`,
  `calculatePageBreaks`, and the ProseMirror plugin state `apply` step), and
* the PDF export pipeline in `pdfExport.ts` (`estimateNodeHeight`,
  `calculatePageBreaks`, `exportToPDF`).

Both are embedded below, each in its own namespace mirroring its source file.
Machine numbers in the sources are JavaScript numbers used only at integer
values; they are modelled as `Nat` (heights, positions, counts) and `Int`
(`remainingSpace`, which can go negative, and the export `quality` option).
-/

/--
A ProseMirror node as consumed by the pagination plugin, classified by
`node.type.name` exactly as the plugin's `estimateNodeHeight` switch does:
`paragraph`, `heading` (with its `level` attribute), `bulletList`,
`orderedList`, `listItem`, `blockquote`, `codeBlock`, `horizontalRule`,
`hardBreak`, `pageBreak` (the manual page-break atom registered by the
`PageBreak` node extension), and a default constructor `other` for any other
type name. Textblock nodes carry their flattened `textContent`; container
nodes carry their child nodes.
-/
inductive PMNode where
  | paragraph (text : String)
  | heading (level : Nat) (text : String)
  | bulletList (children : List PMNode)
  | orderedList (children : List PMNode)
  | listItem (children : List PMNode)
  | blockquote (children : List PMNode)
  | codeBlock (text : String)
  | horizontalRule
  | hardBreak
  | pageBreak
  | other (text : String)

namespace Tiptap

/-! Constants from `Tiptap.jsx` (section CONSTANTS). -/

def A4_WIDTH : Nat := 794
def A4_HEIGHT : Nat := 1123
def PAGE_MARGIN_TOP : Nat := 64
def PAGE_MARGIN_BOTTOM : Nat := 64
def PAGE_MARGIN_LEFT : Nat := 64
def PAGE_MARGIN_RIGHT : Nat := 64

/-- `CONTENT_HEIGHT = A4_HEIGHT - PAGE_MARGIN_TOP - PAGE_MARGIN_BOTTOM` (995px). -/
def CONTENT_HEIGHT : Nat := A4_HEIGHT - PAGE_MARGIN_TOP - PAGE_MARGIN_BOTTOM

/-- `CONTENT_WIDTH = A4_WIDTH - PAGE_MARGIN_LEFT - PAGE_MARGIN_RIGHT` (666px). -/
def CONTENT_WIDTH : Nat := A4_WIDTH - PAGE_MARGIN_LEFT - PAGE_MARGIN_RIGHT

def PAGE_GAP : Nat := 40

/-- The `HEIGHT_ESTIMATES` object of `Tiptap.jsx`. -/
structure HeightEstimates where
  paragraph : Nat
  heading1 : Nat
  heading2 : Nat
  heading3 : Nat
  listItem : Nat
  blockquote : Nat
  codeBlock : Nat
  horizontalRule : Nat
  pageBreak : Nat
  default : Nat

/-- `HEIGHT_ESTIMATES` from `Tiptap.jsx`; the source comments the `pageBreak`
entry with "Forces page break, no height". -/
def HEIGHT_ESTIMATES : HeightEstimates :=
  { paragraph := 28
    heading1 := 56
    heading2 := 44
    heading3 := 36
    listItem := 28
    blockquote := 60
    codeBlock := 80
    horizontalRule := 40
    pageBreak := 0
    default := 28 }

/-- Count of newline characters in a string:
`(textContent.match(/\n/g) || []).length`. -/
def countNewlines (s : String) : Nat := s.toList.count '\n'

mutual
/--
`estimateNodeHeight(node)` from `Tiptap.jsx`. The `switch (node.type.name)`
has cases for `heading`, `paragraph`, `bulletList`, `orderedList`,
`listItem`, `blockquote`, `codeBlock`, `horizontalRule` and `hardBreak`;
every other type name — including `pageBreak` — falls through to
`HEIGHT_ESTIMATES.default`. `node.forEach` accumulation over children is
`estimateChildrenHeight`.
-/
def estimateNodeHeight : PMNode → Nat
  | .heading level _ =>
    if level = 1 then HEIGHT_ESTIMATES.heading1
    else if level = 2 then HEIGHT_ESTIMATES.heading2
    else HEIGHT_ESTIMATES.heading3
  | .paragraph text =>
    let textLength := text.length
    let charsPerLine := 70
    let lines := max 1 ((textLength + charsPerLine - 1) / charsPerLine)
    lines * HEIGHT_ESTIMATES.paragraph + 16
  | .bulletList children => 16 + estimateChildrenHeight children
  | .orderedList children => 16 + estimateChildrenHeight children
  | .listItem children => max HEIGHT_ESTIMATES.listItem (estimateChildrenHeight children)
  | .blockquote children => 32 + estimateChildrenHeight children
  | .codeBlock text => (countNewlines text + 1) * 24 + 32
  | .horizontalRule => HEIGHT_ESTIMATES.horizontalRule
  | .hardBreak => HEIGHT_ESTIMATES.paragraph
  | .pageBreak => HEIGHT_ESTIMATES.default
  | .other _ => HEIGHT_ESTIMATES.default

/-- Sum of `estimateNodeHeight` over a node's children (`node.forEach` loops). -/
def estimateChildrenHeight : List PMNode → Nat
  | [] => 0
  | c :: cs => estimateNodeHeight c + estimateChildrenHeight cs
end

mutual
/--
ProseMirror `nodeSize` for the embedded nodes: a leaf node without content
(`horizontalRule`, the `pageBreak` atom, `hardBreak`) has size 1; a textblock
has size `2 + textContent.length` (one token of text per character plus the
open and close tokens); a container has size 2 plus the sizes of its children.
This is what `doc.forEach((node, offset) => ...)` advances `offset` by.
-/
def nodeSize : PMNode → Nat
  | .paragraph t => 2 + t.length
  | .heading _ t => 2 + t.length
  | .codeBlock t => 2 + t.length
  | .other t => 2 + t.length
  | .bulletList cs => 2 + nodeSizeList cs
  | .orderedList cs => 2 + nodeSizeList cs
  | .listItem cs => 2 + nodeSizeList cs
  | .blockquote cs => 2 + nodeSizeList cs
  | .horizontalRule => 1
  | .hardBreak => 1
  | .pageBreak => 1

/-- Sum of `nodeSize` over a list of nodes (a fragment's content size). -/
def nodeSizeList : List PMNode → Nat
  | [] => 0
  | c :: cs => nodeSize c + nodeSizeList cs
end

/-- One record pushed onto `pageBreaks` by `calculatePageBreaks` in
`Tiptap.jsx`: `{ pos, pageNumber, remainingSpace }`. -/
structure BreakRecord where
  pos : Nat
  pageNumber : Nat
  remainingSpace : Int
deriving DecidableEq

/-- The value returned by `calculatePageBreaks` in `Tiptap.jsx`:
`{ pageBreaks, pageCount }`. -/
structure PaginationResult where
  pageBreaks : List BreakRecord
  pageCount : Nat
deriving DecidableEq

/-- The loop state of `calculatePageBreaks` in `Tiptap.jsx`: the `pageBreaks`
array collected so far, the mutable `currentPageHeight` and
`currentPageNumber`, and the `offset` supplied by `doc.forEach`. -/
structure CalcState where
  pageBreaks : List BreakRecord
  currentPageHeight : Nat
  currentPageNumber : Nat
  offset : Nat

/--
One iteration of the `doc.forEach` loop body of `calculatePageBreaks`
(`Tiptap.jsx`):

if `currentPageHeight + nodeHeight > CONTENT_HEIGHT && currentPageHeight > 0`
push `{ pos: offset, pageNumber: currentPageNumber,
remainingSpace: CONTENT_HEIGHT - currentPageHeight }`, increment
`currentPageNumber` and set `currentPageHeight = nodeHeight`; otherwise
`currentPageHeight += nodeHeight`. There is no special case for any node
type: every node, the `pageBreak` atom included, goes through this body.
`offset` advances by the node's size for the next iteration.
-/
def calcStep (st : CalcState) (node : PMNode) : CalcState :=
  let nodeHeight := estimateNodeHeight node
  if st.currentPageHeight + nodeHeight > CONTENT_HEIGHT ∧ st.currentPageHeight > 0 then
    { pageBreaks := st.pageBreaks ++
        [{ pos := st.offset
           pageNumber := st.currentPageNumber
           remainingSpace := (CONTENT_HEIGHT : Int) - (st.currentPageHeight : Int) }]
      currentPageHeight := nodeHeight
      currentPageNumber := st.currentPageNumber + 1
      offset := st.offset + nodeSize node }
  else
    { st with
      currentPageHeight := st.currentPageHeight + nodeHeight
      offset := st.offset + nodeSize node }

/--
`calculatePageBreaks(doc)` from `Tiptap.jsx`, with the document given by its
ordered list of top-level child nodes (the nodes `doc.forEach` iterates
over). Initial state: `pageBreaks = []`, `currentPageHeight = 0`,
`currentPageNumber = 1`, offset `0`; result
`{ pageBreaks, pageCount: currentPageNumber }`.
-/
def calculatePageBreaks (doc : List PMNode) : PaginationResult :=
  let final := doc.foldl calcStep
    { pageBreaks := [], currentPageHeight := 0, currentPageNumber := 1, offset := 0 }
  { pageBreaks := final.pageBreaks, pageCount := final.currentPageNumber }

/-- The ProseMirror step kinds that can appear on a transaction; a
transaction's document changes exactly when it carries at least one step. -/
inductive StepKind where
  | replace
  | replaceAround
  | addMark
  | removeMark
deriving DecidableEq

/-- A ProseMirror transaction as seen by the pagination plugin's `apply`:
its document-changing steps, plus selection / metadata updates that do not
touch the document. -/
structure Transaction where
  steps : List StepKind
  selectionSet : Bool
  metaChanged : Bool

/-- ProseMirror's `Transform.docChanged` getter: `this.steps.length > 0`.
Selection-only, focus and metadata-only transactions carry no steps. -/
def Transaction.docChanged (tr : Transaction) : Prop := tr.steps.length > 0

instance (tr : Transaction) : Decidable tr.docChanged :=
  inferInstanceAs (Decidable (tr.steps.length > 0))

/--
The pagination plugin's `state.apply(tr, value, oldState, newState)` from
`Tiptap.jsx`: `if (!tr.docChanged) return value;` then
`return calculatePageBreaks(newState.doc)`. `newStateDoc` is the new state's
document (its top-level block list).
-/
def paginationApply (tr : Transaction) (value : PaginationResult)
    (newStateDoc : List PMNode) : PaginationResult :=
  if tr.docChanged then calculatePageBreaks newStateDoc else value

end Tiptap

/--
A rendered DOM element of the editor content surface, as inspected by
`pdfExport.ts`: its (lowercased) tag name, its class list, its direct text
and its child elements. `textContent` and descendant queries are derived
below.
-/
inductive DomElem where
  | mk (tagName : String) (classes : List String) (ownText : String)
      (children : List DomElem)

def DomElem.tagName : DomElem → String
  | .mk t _ _ _ => t

def DomElem.classes : DomElem → List String
  | .mk _ c _ _ => c

def DomElem.ownText : DomElem → String
  | .mk _ _ s _ => s

def DomElem.children : DomElem → List DomElem
  | .mk _ _ _ cs => cs

mutual
/-- DOM `textContent`: the element's own text followed by the text of all
its descendants, in document order. -/
def DomElem.textContent : DomElem → String
  | .mk _ _ s cs => s ++ DomElem.textContentList cs

def DomElem.textContentList : List DomElem → String
  | [] => ""
  | c :: cs => DomElem.textContent c ++ DomElem.textContentList cs
end

mutual
/-- `node.querySelectorAll('li').length`: the number of descendant elements
(the element itself excluded) whose tag is `li`. -/
def DomElem.countLi : DomElem → Nat
  | .mk _ _ _ cs => DomElem.countLiList cs

def DomElem.countLiList : List DomElem → Nat
  | [] => 0
  | c :: cs =>
    (if c.tagName = "li" then 1 else 0) + DomElem.countLi c + DomElem.countLiList cs
end

namespace PdfExport

/-! Constants from `pdfExport.ts` (section CONSTANTS MATCHING WEB UI). -/

def WEB_A4_WIDTH_PX : Nat := 794
def WEB_A4_HEIGHT_PX : Nat := 1123
def WEB_PAGE_MARGIN_TOP_PX : Nat := 64
def WEB_PAGE_MARGIN_BOTTOM_PX : Nat := 64
def WEB_PAGE_MARGIN_LEFT_PX : Nat := 64
def WEB_PAGE_MARGIN_RIGHT_PX : Nat := 64

/-- `WEB_CONTENT_HEIGHT_PX = WEB_A4_HEIGHT_PX - WEB_PAGE_MARGIN_TOP_PX -
WEB_PAGE_MARGIN_BOTTOM_PX` (995px). -/
def WEB_CONTENT_HEIGHT_PX : Nat :=
  WEB_A4_HEIGHT_PX - WEB_PAGE_MARGIN_TOP_PX - WEB_PAGE_MARGIN_BOTTOM_PX

/-- `WEB_CONTENT_WIDTH_PX` (666px). -/
def WEB_CONTENT_WIDTH_PX : Nat :=
  WEB_A4_WIDTH_PX - WEB_PAGE_MARGIN_LEFT_PX - WEB_PAGE_MARGIN_RIGHT_PX

def A4_WIDTH_MM : Nat := 210
def A4_HEIGHT_MM : Nat := 297

/-- The `HEIGHT_ESTIMATES` object of `pdfExport.ts` (note: unlike the one in
`Tiptap.jsx` it has no `codeBlock` entry). -/
structure WebHeightEstimates where
  paragraph : Nat
  heading1 : Nat
  heading2 : Nat
  heading3 : Nat
  listItem : Nat
  blockquote : Nat
  horizontalRule : Nat
  pageBreak : Nat
  default : Nat

def HEIGHT_ESTIMATES : WebHeightEstimates :=
  { paragraph := 28
    heading1 := 56
    heading2 := 44
    heading3 := 36
    listItem := 28
    blockquote := 60
    horizontalRule := 40
    pageBreak := 0
    default := 28 }

/--
`estimateNodeHeight(node: Element)` from `pdfExport.ts`: dispatch on the
lowercased tag name (`h1`, `h2`, `h3`, `blockquote`, `hr`, `ul`/`ol`, `p`),
then on the `manual-page-break` class, with `HEIGHT_ESTIMATES.default` as
the fallthrough. There is no case for `pre`, so code blocks take the
default.
-/
def estimateNodeHeight (node : DomElem) : Nat :=
  let tagName := node.tagName
  if tagName = "h1" then HEIGHT_ESTIMATES.heading1
  else if tagName = "h2" then HEIGHT_ESTIMATES.heading2
  else if tagName = "h3" then HEIGHT_ESTIMATES.heading3
  else if tagName = "blockquote" then HEIGHT_ESTIMATES.blockquote
  else if tagName = "hr" then HEIGHT_ESTIMATES.horizontalRule
  else if tagName = "ul" ∨ tagName = "ol" then
    16 + node.countLi * HEIGHT_ESTIMATES.listItem
  else if tagName = "p" then
    let text := node.textContent
    let lines := max 1 ((text.length + 69) / 70)
    lines * HEIGHT_ESTIMATES.paragraph + 16
  else if node.classes.contains "manual-page-break" then HEIGHT_ESTIMATES.pageBreak
  else HEIGHT_ESTIMATES.default

/-- The loop state of `calculatePageBreaks` in `pdfExport.ts`: the `pages`
array collected so far, the mutable `currentPage` and `currentHeight`, and
the loop index `i`. -/
structure PagesState where
  pages : List (List Nat)
  currentPage : List Nat
  currentHeight : Nat
  i : Nat
deriving DecidableEq

/--
One iteration of the `for` loop body of `calculatePageBreaks`
(`pdfExport.ts`): skip `pm-page-break-widget` decorations; on a
`manual-page-break` element flush the current page if non-empty; otherwise
run the greedy first-fit step against `WEB_CONTENT_HEIGHT_PX`. The index `i`
advances on every iteration, skipped elements included.
-/
def pagesStep (st : PagesState) (child : DomElem) : PagesState :=
  if child.classes.contains "pm-page-break-widget" then
    { st with i := st.i + 1 }
  else if child.classes.contains "manual-page-break" then
    if st.currentPage.length > 0 then
      { pages := st.pages ++ [st.currentPage]
        currentPage := []
        currentHeight := 0
        i := st.i + 1 }
    else
      { st with i := st.i + 1 }
  else
    let nodeHeight := estimateNodeHeight child
    if st.currentHeight + nodeHeight > WEB_CONTENT_HEIGHT_PX ∧ st.currentPage.length > 0 then
      { pages := st.pages ++ [st.currentPage]
        currentPage := [st.i]
        currentHeight := nodeHeight
        i := st.i + 1 }
    else
      { st with
        currentPage := st.currentPage ++ [st.i]
        currentHeight := st.currentHeight + nodeHeight
        i := st.i + 1 }

/--
`calculatePageBreaks(contentElement)` from `pdfExport.ts`: walk
`contentElement.children`, group child indices into pages, and push the
final non-empty `currentPage`.
-/
def calculatePageBreaks (contentElement : DomElem) : List (List Nat) :=
  let final := contentElement.children.foldl pagesStep
    { pages := [], currentPage := [], currentHeight := 0, i := 0 }
  if final.currentPage.length > 0 then final.pages ++ [final.currentPage] else final.pages

/-- The `PDFExportOptions` interface of `pdfExport.ts`; every field is
optional and defaulted inside `exportToPDF`. -/
structure PDFExportOptions where
  filename : Option String := none
  includePageNumbers : Option Bool := none
  quality : Option Int := none

/-- The observable content of one page rasterized during export: which
source-child indices were cloned into its render container, the optional
"Page X of Y" footer, and the `scale` passed to `html2canvas` (the `quality`
option). -/
structure RenderedPage where
  nodeIndices : List Nat
  footer : Option (Nat × Nat)
  scale : Int
deriving DecidableEq

/-- The outcome of `exportToPDF`: either it returned before a PDF document
was created (content source missing or empty), or it saved a file whose
per-page entries hold the captured image data — `none` for a page whose
`html2canvas` call threw (the error is logged and the loop continues). -/
inductive ExportOutcome where
  | noFile
  | savedFile (filename : String) (pages : List (Option RenderedPage))
deriving DecidableEq

def ExportOutcome.savedFilename : ExportOutcome → Option String
  | .noFile => none
  | .savedFile f _ => some f

def ExportOutcome.savedPages : ExportOutcome → Option (List (Option RenderedPage))
  | .noFile => none
  | .savedFile _ ps => some ps

/-- Default element used to model a JavaScript out-of-range array access
(`allChildren[idx]` being `undefined` makes the clone guard fail, exactly as
an index filter does). -/
def missingElem : DomElem := .mk "" [] "" []

/--
`exportToPDF(editor, options)` from `pdfExport.ts`, modelled on its
observable pagination behaviour. `editorElement` is the result of
`document.querySelector('.editor-content .ProseMirror')` (`none` when not
found). `html2canvasOk pageIndex` says whether the `html2canvas` call for
that page succeeds; on failure the error is caught and logged and the loop
proceeds, so the page contributes no image. DOM furniture (containers,
style copying, font readiness) does not affect which pages and nodes are
produced and is not modelled. Steps kept, in source order: default the
options (`filename = 'document.pdf'`, `includePageNumbers = true`,
`quality = 2`); return with no file when the editor element is missing;
filter out `pm-page-break-widget` children and return with no file when
nothing remains; compute `calculatePageBreaks`; then per page clone the
in-range non-widget nodes of that page, add the footer when requested, and
capture with `scale: quality`; finally save the PDF.
-/
def exportToPDF (editorElement : Option DomElem) (options : PDFExportOptions)
    (html2canvasOk : Nat → Bool) : ExportOutcome :=
  let filename := options.filename.getD "document.pdf"
  let includePageNumbers := options.includePageNumbers.getD true
  let quality := options.quality.getD 2
  match editorElement with
  | none => ExportOutcome.noFile
  | some editorEl =>
    let allChildren := editorEl.children
    let children := allChildren.filter fun c => !(c.classes.contains "pm-page-break-widget")
    if children.length = 0 then ExportOutcome.noFile
    else
      let pageBreaks := calculatePageBreaks editorEl
      let totalPages := pageBreaks.length
      let pages := (List.range totalPages).map fun pageIndex =>
        let nodeIndices := (pageBreaks.getD pageIndex []).filter fun idx =>
          decide (idx < allChildren.length) &&
            !((allChildren.getD idx missingElem).classes.contains "pm-page-break-widget")
        if html2canvasOk pageIndex then
          some { nodeIndices := nodeIndices
                 footer := if includePageNumbers then some (pageIndex + 1, totalPages) else none
                 scale := quality }
        else none
      ExportOutcome.savedFile filename pages

end PdfExport

mutual
/--
Modelled from the spec: the DOM rendering of each editor block type on the
content surface that `exportToPDF` reads back. The repository itself only
defines the rendering of the manual page break (`PageBreak.renderHTML` in
`Tiptap.jsx`: a `div` with class `manual-page-break`); the remaining block
types are rendered by the TipTap StarterKit extensions the editor is
configured with, which render `paragraph` as `p`, `heading` of level n as
the tag `h` followed by n, `bulletList` as `ul`, `orderedList` as `ol`,
`listItem` as `li`, `blockquote` as `blockquote`, `codeBlock` as `pre`
containing `code`, `horizontalRule` as `hr` and `hardBreak` as `br`.
-/
def render : PMNode → DomElem
  | .paragraph t => .mk "p" [] t []
  | .heading l t => .mk ("h" ++ toString l) [] t []
  | .bulletList cs => .mk "ul" [] "" (renderList cs)
  | .orderedList cs => .mk "ol" [] "" (renderList cs)
  | .listItem cs => .mk "li" [] "" (renderList cs)
  | .blockquote cs => .mk "blockquote" [] "" (renderList cs)
  | .codeBlock t => .mk "pre" [] "" [.mk "code" [] t []]
  | .horizontalRule => .mk "hr" [] "" []
  | .pageBreak => .mk "div" ["manual-page-break"] "" []
  | .hardBreak => .mk "br" [] "" []
  | .other t => .mk "div" [] t []

def renderList : List PMNode → List DomElem
  | [] => []
  | c :: cs => render c :: renderList cs
end

/-- The block types on which the live estimator (`Tiptap.jsx`) and the export
estimator (`pdfExport.ts`) can be compared one block at a time: paragraphs,
headings of the configured levels 1-3, and horizontal rules. -/
def isSimpleBlock : PMNode → Bool
  | .paragraph _ => true
  | .heading l _ => l == 1 || l == 2 || l == 3
  | .horizontalRule => true
  | _ => false

/--
Modelled from the spec, for the refinement comparison of claim C2: the page
membership induced by the live Page Breaker — "run the same greedy first-fit
placement" grouping top-level block indices into pages. One step places
block `i`: if it would overflow the 995px budget and the current page has
content, flush the page and start a new one with this block, else add it to
the current page, exactly the branch structure of the live
`calculatePageBreaks` loop with heights from the live `estimateNodeHeight`.
-/
def livePagesStep (st : PdfExport.PagesState) (node : PMNode) : PdfExport.PagesState :=
  let nodeHeight := Tiptap.estimateNodeHeight node
  if st.currentHeight + nodeHeight > Tiptap.CONTENT_HEIGHT ∧ st.currentHeight > 0 then
    { pages := st.pages ++ [st.currentPage]
      currentPage := [st.i]
      currentHeight := nodeHeight
      i := st.i + 1 }
  else
    { st with
      currentPage := st.currentPage ++ [st.i]
      currentHeight := st.currentHeight + nodeHeight
      i := st.i + 1 }

/-- Modelled from the spec: the live pagination's page membership — block
indices grouped into pages by the live greedy first-fit loop (see
`livePagesStep`), with the final non-empty page included. -/
def livePageMembership (doc : List PMNode) : List (List Nat) :=
  let final := doc.foldl livePagesStep
    { pages := [], currentPage := [], currentHeight := 0, i := 0 }
  if final.currentPage.length > 0 then final.pages ++ [final.currentPage] else final.pages

/-! Concrete inputs used by the claim theorems, their witnesses and
counterexamples. -/

/-- Scenario C's block sequence: a level-1 heading, a manual page break, a
paragraph. -/
def c1doc : List PMNode := [.heading 1 "Title", .pageBreak, .paragraph "Hello world"]

/-- 21 empty paragraphs (estimate 44 each, 924px total) followed by a
blockquote containing one empty paragraph: the live estimator gives the
blockquote 32 + 44 = 76 (overflow, 2 pages), the export estimator gives its
rendering a flat 60 (fits, 1 page). -/
def c2doc : List PMNode :=
  List.replicate 21 (PMNode.paragraph "") ++ [.blockquote [.paragraph ""]]

/-- A small document of simple blocks for the C2 witness. -/
def c2wdoc : List PMNode := [.heading 1 "Title", .paragraph "Hello", .horizontalRule]

/-- 30 empty paragraphs: enough for exactly one natural page break. -/
def c3doc : List PMNode := List.replicate 30 (PMNode.paragraph "")

/-- Scenario B's block sequence: 40 paragraphs each of estimated height 44
(empty text estimates to one line: 28 + 16 = 44). -/
def c4doc : List PMNode := List.replicate 40 (PMNode.paragraph "")

/-- A selection-only transaction: no steps, so `docChanged` is false. -/
def c6tr : Tiptap.Transaction := { steps := [], selectionSet := true, metaChanged := false }

/-- A content-editing transaction carrying a replace step. -/
def c6trEdit : Tiptap.Transaction :=
  { steps := [.replace], selectionSet := false, metaChanged := false }

/-- A cached pagination result distinguishable from any freshly computed one. -/
def c6cached : Tiptap.PaginationResult := { pageBreaks := [], pageCount := 5 }

/-- A one-paragraph document for the recalculation-controller witness. -/
def c6doc : List PMNode := [.paragraph "x"]

/-- A rendered editor surface with a single paragraph child. -/
def cElOneParagraph : DomElem := .mk "div" [] "" [.mk "p" [] "Hello" []]

/-- A rasterization oracle on which every page's `html2canvas` call throws. -/
def okNone : Nat → Bool := fun _ => false

/-- A rasterization oracle on which every page's `html2canvas` call succeeds. -/
def okAll : Nat → Bool := fun _ => true

/-- Export options with quality 7, outside the documented 1-4 range. -/
def c8opts : PdfExport.PDFExportOptions := { quality := some 7 }

/-- A code block of 41 lines (40 newline characters): estimated height
41 * 24 + 32 = 1016 > 995, taller than the whole page budget. -/
def c9big : PMNode := .codeBlock (String.mk (List.replicate 40 '\n'))

/-- A rendered editor surface whose only child is a
`pm-page-break-widget` decoration: no content remains after filtering. -/
def c10el : DomElem := .mk "div" [] "" [.mk "div" ["pm-page-break-widget"] "" []]

/-! Helper lemmas. -/

/-- Every ProseMirror node occupies at least one position. -/
theorem nodeSize_pos (n : PMNode) : 0 < Tiptap.nodeSize n := by
  cases n <;> simp [Tiptap.nodeSize]

/--
Running the `calculatePageBreaks` loop from an arbitrary state appends some
list of break records whose page numbers continue the current page number
contiguously, whose positions are at least the current offset and strictly
increase, and it advances `currentPageNumber` by the number of records
appended.
-/
theorem calc_run (doc : List PMNode) :
    ∀ st : Tiptap.CalcState,
      ∃ added : List Tiptap.BreakRecord,
        (doc.foldl Tiptap.calcStep st).pageBreaks = st.pageBreaks ++ added ∧
        (doc.foldl Tiptap.calcStep st).currentPageNumber
          = st.currentPageNumber + added.length ∧
        added.map Tiptap.BreakRecord.pageNumber
          = List.range' st.currentPageNumber added.length ∧
        (∀ b ∈ added, st.offset ≤ b.pos) ∧
        List.Chain' (fun a b => a.pos < b.pos) added := by
  induction doc with
  | nil =>
    intro st
    exact ⟨[], by simp, by simp, by simp, by simp, by simp⟩
  | cons n rest ih =>
    intro st
    rw [List.foldl_cons]
    by_cases hc : st.currentPageHeight + Tiptap.estimateNodeHeight n > Tiptap.CONTENT_HEIGHT ∧
        st.currentPageHeight > 0
    · have hb : Tiptap.calcStep st n =
          { pageBreaks := st.pageBreaks ++
              [{ pos := st.offset
                 pageNumber := st.currentPageNumber
                 remainingSpace := (Tiptap.CONTENT_HEIGHT : Int)
                   - (st.currentPageHeight : Int) }]
            currentPageHeight := Tiptap.estimateNodeHeight n
            currentPageNumber := st.currentPageNumber + 1
            offset := st.offset + Tiptap.nodeSize n } := by
        simp [Tiptap.calcStep, hc]
      rw [hb]
      obtain ⟨added, h1, h2, h3, h4, h5⟩ := ih
        { pageBreaks := st.pageBreaks ++
            [{ pos := st.offset
               pageNumber := st.currentPageNumber
               remainingSpace := (Tiptap.CONTENT_HEIGHT : Int)
                 - (st.currentPageHeight : Int) }]
          currentPageHeight := Tiptap.estimateNodeHeight n
          currentPageNumber := st.currentPageNumber + 1
          offset := st.offset + Tiptap.nodeSize n }
      dsimp only at h1 h2 h3 h4
      refine ⟨{ pos := st.offset
                pageNumber := st.currentPageNumber
                remainingSpace := (Tiptap.CONTENT_HEIGHT : Int)
                  - (st.currentPageHeight : Int) } :: added, ?_, ?_, ?_, ?_, ?_⟩
      · rw [h1]; simp
      · rw [h2]; simp; omega
      · simp only [List.map_cons, List.length_cons, List.range'_succ]
        simp [h3]
      · intro b hb'
        rcases List.mem_cons.mp hb' with hb' | hb'
        · subst hb'; exact le_refl _
        · have := h4 b hb'
          omega
      · rw [List.chain'_cons']
        refine ⟨?_, h5⟩
        intro h hh
        have hmem : h ∈ added := List.mem_of_mem_head? hh
        have := h4 h hmem
        have hns := nodeSize_pos n
        dsimp only
        omega
    · have hb : Tiptap.calcStep st n =
          { st with
            currentPageHeight := st.currentPageHeight + Tiptap.estimateNodeHeight n
            offset := st.offset + Tiptap.nodeSize n } := by
        simp [Tiptap.calcStep, hc]
      rw [hb]
      obtain ⟨added, h1, h2, h3, h4, h5⟩ := ih
        { st with
          currentPageHeight := st.currentPageHeight + Tiptap.estimateNodeHeight n
          offset := st.offset + Tiptap.nodeSize n }
      dsimp only at h1 h2 h3 h4
      refine ⟨added, h1, h2, h3, ?_, h5⟩
      intro b hb'
      have := h4 b hb'
      omega

/--
C5: for every finite block sequence (including the empty one),
`computeBreaks` — the plugin's `calculatePageBreaks` — terminates (it is a
total function of this development) and returns a `PaginationResult` with
`pageCount = breaks.length + 1` and `pageCount ≥ 1`; the empty sequence
yields `pageCount = 1` and `breaks = []`.
-/
theorem c5_totality_page_count (doc : List PMNode) :
    (Tiptap.calculatePageBreaks doc).pageCount
        = (Tiptap.calculatePageBreaks doc).pageBreaks.length + 1 ∧
    1 ≤ (Tiptap.calculatePageBreaks doc).pageCount ∧
    Tiptap.calculatePageBreaks [] = { pageBreaks := [], pageCount := 1 } := by
  obtain ⟨added, h1, h2, -, -, -⟩ := calc_run doc
    { pageBreaks := [], currentPageHeight := 0, currentPageNumber := 1, offset := 0 }
  dsimp only at h1 h2
  simp only [Tiptap.calculatePageBreaks, h1, h2]
  refine ⟨by simp; omega, by omega, rfl⟩

/--
C3 (amended): in every `PaginationResult` the `BreakRecord.pos` values are
strictly increasing across `pageBreaks`, and the `pageNumber` values are
strictly increasing and contiguous starting at 1 — the j-th break carries
`pageNumber = j + 1` beginning with 1, the number of the page that ends at
the break, not the number (≥ 2) of the page that starts after it.
-/
theorem c3_breaks_monotone_pageNumbers_from_one (doc : List PMNode) :
    List.Chain' (fun a b => a.pos < b.pos)
      (Tiptap.calculatePageBreaks doc).pageBreaks ∧
    (Tiptap.calculatePageBreaks doc).pageBreaks.map Tiptap.BreakRecord.pageNumber
      = List.range' 1 (Tiptap.calculatePageBreaks doc).pageBreaks.length := by
  obtain ⟨added, h1, -, h3, -, h5⟩ := calc_run doc
    { pageBreaks := [], currentPageHeight := 0, currentPageNumber := 1, offset := 0 }
  dsimp only at h1 h3
  simp only [Tiptap.calculatePageBreaks, h1]
  simp only [List.nil_append] at h1 ⊢
  exact ⟨h5, h3⟩

set_option maxRecDepth 8000 in
/--
C3 (counterexample): on thirty empty paragraphs the single emitted break
carries `pageNumber = 1`, not a value ≥ 2: the loop pushes
`currentPageNumber` before incrementing it.
-/
theorem c3_first_break_has_page_number_one :
    (Tiptap.calculatePageBreaks c3doc).pageBreaks.map Tiptap.BreakRecord.pageNumber
      = [1] ∧
    ¬ (2 : Nat) ≤ 1 := by decide

/--
C1 (code bug): the plugin's `calculatePageBreaks` has no manual-page-break
case at all. Its own `HEIGHT_ESTIMATES` table declares `pageBreak: 0`
("Forces page break, no height"), but the `estimateNodeHeight` switch never
reads it — a `pageBreak` node falls to the default case and is charged 28px
— and the loop emits no break for it. On Scenario C's blocks
`[heading1, manualPageBreak, paragraph]` (total 56 + 28 + 44 = 128 ≤ 995)
the result is no breaks and one page, not one break with `pageCount = 2`
and `remainingSpace = 939`.
-/
theorem c1_manual_break_ignored_by_live_plugin :
    Tiptap.HEIGHT_ESTIMATES.pageBreak = 0 ∧
    Tiptap.estimateNodeHeight PMNode.pageBreak = 28 ∧
    Tiptap.calculatePageBreaks c1doc = { pageBreaks := [], pageCount := 1 } := by
  decide

set_option maxRecDepth 8000 in
/--
C4 (counterexample): on forty empty paragraphs — each of estimated height
44, as the claim requires — the single break's `pos` is 44, the ProseMirror
document offset of the 23rd paragraph (22 paragraphs of `nodeSize` 2 each),
not the block index 22 the claim states.
-/
theorem c4_break_pos_is_offset_not_index :
    c4doc.all (fun n => Tiptap.estimateNodeHeight n == 44) = true ∧
    (Tiptap.calculatePageBreaks c4doc).pageBreaks.map Tiptap.BreakRecord.pos = [44] ∧
    ¬ (44 : Nat) = 22 := by decide

set_option maxRecDepth 8000 in
/--
C4 (amended): forty paragraphs of estimated height 44 with budget 995
produce exactly one break falling before the 23rd paragraph (22·44 = 968 ≤
995 and 23·44 = 1012 > 995) and `pageCount = 2`; the break's `pos` is the
document offset of the 23rd paragraph — the summed `nodeSize` of the first
22 blocks, i.e. 44 for empty paragraphs — and its `remainingSpace` is
995 − 968 = 27.
-/
theorem c4_scenario_b_amended :
    Tiptap.calculatePageBreaks c4doc =
      { pageBreaks := [{ pos := 44, pageNumber := 1, remainingSpace := 27 }]
        pageCount := 2 } ∧
    ((c4doc.take 22).map Tiptap.nodeSize).sum = 44 := by decide

/--
C6: the pagination plugin's `apply` returns the cached `PaginationResult`
unchanged on every transaction whose document did not change (selection,
focus or metadata-only transactions carry no steps, so `tr.docChanged` is
false), and recomputes — `calculatePageBreaks` on the new document — exactly
on the transactions whose document changed.
-/
theorem c6_apply_recomputes_only_on_doc_change (tr : Tiptap.Transaction)
    (value : Tiptap.PaginationResult) (newStateDoc : List PMNode) :
    (¬ tr.docChanged → Tiptap.paginationApply tr value newStateDoc = value) ∧
    (tr.docChanged → Tiptap.paginationApply tr value newStateDoc
        = Tiptap.calculatePageBreaks newStateDoc) := by
  constructor <;> intro h <;> simp [Tiptap.paginationApply, h]

/--
C6 (witness): a selection-only transaction leaves the cached result `c6cached`
untouched; a transaction carrying a replace step recomputes.
-/
theorem c6_apply_witness :
    ¬ c6tr.docChanged ∧
    Tiptap.paginationApply c6tr c6cached c6doc = c6cached ∧
    c6trEdit.docChanged ∧
    Tiptap.paginationApply c6trEdit c6cached c6doc = Tiptap.calculatePageBreaks c6doc := by
  exact ⟨by decide,
    (c6_apply_recomputes_only_on_doc_change c6tr c6cached c6doc).1 (by decide),
    by decide,
    (c6_apply_recomputes_only_on_doc_change c6trEdit c6cached c6doc).2 (by decide)⟩

/--
C9: `remainingSpace` is exactly `CONTENT_HEIGHT` minus the accumulated
height of the page ending at the break, with no clamping at zero: whenever a
block estimated taller than the whole budget is followed by any block, the
page holding the oversized block ends with a break whose `remainingSpace`
is negative.
-/
theorem c9_remaining_space_unclamped (n1 n2 : PMNode)
    (h : Tiptap.CONTENT_HEIGHT < Tiptap.estimateNodeHeight n1) :
    Tiptap.calculatePageBreaks [n1, n2] =
      { pageBreaks := [{ pos := Tiptap.nodeSize n1
                         pageNumber := 1
                         remainingSpace := (Tiptap.CONTENT_HEIGHT : Int)
                           - (Tiptap.estimateNodeHeight n1 : Int) }]
        pageCount := 2 } ∧
    (Tiptap.CONTENT_HEIGHT : Int) - (Tiptap.estimateNodeHeight n1 : Int) < 0 := by
  constructor
  · have hcond : Tiptap.CONTENT_HEIGHT
        < Tiptap.estimateNodeHeight n1 + Tiptap.estimateNodeHeight n2
        ∧ 0 < Tiptap.estimateNodeHeight n1 := by
      constructor <;> omega
    simp [Tiptap.calculatePageBreaks, Tiptap.calcStep, hcond]
  · omega

/--
C9 (witness): a 41-line code block (estimate 1016 > 995) followed by an
empty paragraph yields a break with `remainingSpace = 995 - 1016 = -21`.
-/
theorem c9_remaining_space_witness :
    Tiptap.CONTENT_HEIGHT < Tiptap.estimateNodeHeight c9big ∧
    (Tiptap.calculatePageBreaks [c9big, PMNode.paragraph ""] =
      { pageBreaks := [{ pos := Tiptap.nodeSize c9big
                         pageNumber := 1
                         remainingSpace := (Tiptap.CONTENT_HEIGHT : Int)
                           - (Tiptap.estimateNodeHeight c9big : Int) }]
        pageCount := 2 } ∧
    (Tiptap.CONTENT_HEIGHT : Int) - (Tiptap.estimateNodeHeight c9big : Int) < 0) := by
  exact ⟨by decide, c9_remaining_space_unclamped c9big (PMNode.paragraph "") (by decide)⟩

/-- The fixed layout budgets of the two pipelines agree:
`WEB_CONTENT_HEIGHT_PX = CONTENT_HEIGHT` (= 995). -/
theorem budget_arithmetic : PdfExport.WEB_CONTENT_HEIGHT_PX = Tiptap.CONTENT_HEIGHT := rfl

/-- On simple blocks (paragraphs, headings of level 1-3, horizontal rules)
the export estimator applied to the rendered element agrees with the live
estimator. -/
theorem render_estimate_agrees_on_simple (n : PMNode) (h : isSimpleBlock n = true) :
    PdfExport.estimateNodeHeight (render n) = Tiptap.estimateNodeHeight n := by
  cases n with
  | paragraph t =>
    simp [render, PdfExport.estimateNodeHeight, Tiptap.estimateNodeHeight,
      DomElem.textContent, DomElem.textContentList, DomElem.tagName, DomElem.classes,
      String.append_empty, Tiptap.HEIGHT_ESTIMATES, PdfExport.HEIGHT_ESTIMATES]
  | heading l t =>
    simp only [isSimpleBlock, Bool.or_eq_true, beq_iff_eq] at h
    rcases h with (h | h) | h <;> subst h <;> rfl
  | horizontalRule => rfl
  | bulletList cs => simp [isSimpleBlock] at h
  | orderedList cs => simp [isSimpleBlock] at h
  | listItem cs => simp [isSimpleBlock] at h
  | blockquote cs => simp [isSimpleBlock] at h
  | codeBlock t => simp [isSimpleBlock] at h
  | hardBreak => simp [isSimpleBlock] at h
  | pageBreak => simp [isSimpleBlock] at h
  | other t => simp [isSimpleBlock] at h

/-- Simple blocks have positive estimated height. -/
theorem estimate_simple_pos (n : PMNode) (h : isSimpleBlock n = true) :
    0 < Tiptap.estimateNodeHeight n := by
  cases n with
  | paragraph t =>
    simp only [Tiptap.estimateNodeHeight]
    omega
  | heading l t =>
    simp only [isSimpleBlock, Bool.or_eq_true, beq_iff_eq] at h
    rcases h with (h | h) | h <;> subst h <;>
      norm_num [Tiptap.estimateNodeHeight, Tiptap.HEIGHT_ESTIMATES]
  | horizontalRule => decide
  | bulletList cs => simp [isSimpleBlock] at h
  | orderedList cs => simp [isSimpleBlock] at h
  | listItem cs => simp [isSimpleBlock] at h
  | blockquote cs => simp [isSimpleBlock] at h
  | codeBlock t => simp [isSimpleBlock] at h
  | hardBreak => simp [isSimpleBlock] at h
  | pageBreak => simp [isSimpleBlock] at h
  | other t => simp [isSimpleBlock] at h

/--
On a document of simple blocks, the export grouping loop run over the
rendered elements coincides step by step with the live greedy placement
loop, provided the state satisfies the linking invariant "the current page
has positive height iff it holds a block".
-/
theorem pages_lockstep (doc : List PMNode) :
    ∀ st : PdfExport.PagesState, doc.all isSimpleBlock = true →
      (0 < st.currentHeight ↔ st.currentPage ≠ []) →
      (doc.map render).foldl PdfExport.pagesStep st = doc.foldl livePagesStep st := by
  induction doc with
  | nil => intro st _ _; rfl
  | cons n rest ih =>
    intro st hall hinv
    simp only [List.all_cons, Bool.and_eq_true] at hall
    obtain ⟨hn, hrest⟩ := hall
    simp only [List.map_cons, List.foldl_cons]
    have hstep : PdfExport.pagesStep st (render n) = livePagesStep st n := by
      have hclasses : (render n).classes = [] := by
        cases n <;> simp_all [isSimpleBlock, render, DomElem.classes]
      have hest := render_estimate_agrees_on_simple n hn
      have hiff : (st.currentHeight + Tiptap.estimateNodeHeight n
            > PdfExport.WEB_CONTENT_HEIGHT_PX ∧ st.currentPage.length > 0)
          ↔ (st.currentHeight + Tiptap.estimateNodeHeight n
            > Tiptap.CONTENT_HEIGHT ∧ st.currentHeight > 0) := by
        rw [budget_arithmetic]
        constructor
        · rintro ⟨ha, hb⟩
          exact ⟨ha, hinv.mpr (List.length_pos.mp hb)⟩
        · rintro ⟨ha, hb⟩
          exact ⟨ha, List.length_pos.mpr (hinv.mp hb)⟩
      simp only [PdfExport.pagesStep, livePagesStep, hclasses, hest]
      simp only [List.contains, List.elem_eq_mem, List.not_mem_nil, decide_False,
        Bool.false_eq_true, if_false]
      rw [if_congr hiff rfl rfl]
    rw [hstep]
    apply ih _ hrest
    have hpos := estimate_simple_pos n hn
    simp only [livePagesStep]
    by_cases hc : st.currentHeight + Tiptap.estimateNodeHeight n
        > Tiptap.CONTENT_HEIGHT ∧ st.currentHeight > 0
    · simp only [if_pos hc]
      simp [hpos]
    · simp only [if_neg hc]
      simp only [ne_eq, List.append_eq_nil, List.cons_ne_self, and_false,
        not_false_eq_true, iff_true]
      omega

/-- After placing at least one block the live placement loop's current page
is never empty. -/
theorem live_currentPage_ne_nil (ds : List PMNode) :
    ∀ (st : PdfExport.PagesState) (d : PMNode),
      ((d :: ds).foldl livePagesStep st).currentPage ≠ [] := by
  induction ds with
  | nil =>
    intro st d
    simp only [List.foldl_cons, List.foldl_nil, livePagesStep]
    split <;> simp
  | cons e es ih =>
    intro st d
    rw [List.foldl_cons]
    exact ih (livePagesStep st d) e

/-- The live placement loop and the plugin's break loop stay linked: flushed
pages plus one equals the plugin's `currentPageNumber`, and the running page
heights agree. -/
theorem live_pages_pagecount (doc : List PMNode) :
    ∀ (stP : PdfExport.PagesState) (stC : Tiptap.CalcState),
      stP.currentHeight = stC.currentPageHeight →
      stP.pages.length + 1 = stC.currentPageNumber →
      (doc.foldl livePagesStep stP).pages.length + 1
        = (doc.foldl Tiptap.calcStep stC).currentPageNumber ∧
      (doc.foldl livePagesStep stP).currentHeight
        = (doc.foldl Tiptap.calcStep stC).currentPageHeight := by
  induction doc with
  | nil => intro stP stC h1 h2; exact ⟨h2, h1⟩
  | cons n rest ih =>
    intro stP stC h1 h2
    simp only [List.foldl_cons]
    apply ih
    · show (livePagesStep stP n).currentHeight = (Tiptap.calcStep stC n).currentPageHeight
      simp only [livePagesStep, Tiptap.calcStep, h1]
      by_cases hc : stC.currentPageHeight + Tiptap.estimateNodeHeight n
          > Tiptap.CONTENT_HEIGHT ∧ stC.currentPageHeight > 0
      · rw [if_pos hc, if_pos hc]
      · rw [if_neg hc, if_neg hc]
    · show (livePagesStep stP n).pages.length + 1 = (Tiptap.calcStep stC n).currentPageNumber
      simp only [livePagesStep, Tiptap.calcStep, h1]
      by_cases hc : stC.currentPageHeight + Tiptap.estimateNodeHeight n
          > Tiptap.CONTENT_HEIGHT ∧ stC.currentPageHeight > 0
      · rw [if_pos hc, if_pos hc]
        simp only [List.length_append, List.length_cons, List.length_nil]
        omega
      · rw [if_neg hc, if_neg hc]
        simpa using h2

/--
C2 (amended): on documents made of paragraphs, headings of the configured
levels 1-3 and horizontal rules, the Export Paginator's `calculatePageBreaks`
over the rendered content surface produces exactly the live pagination's
page membership — same greedy first-fit, same 995px budget, same per-type
heights — and its page count equals the live `pageCount`. (On other block
types the two estimators differ and the page memberships can diverge; and
the export never measures the DOM, it always uses its estimate table.)
-/
theorem c2_export_matches_live_on_simple_blocks (doc : List PMNode)
    (hs : doc.all isSimpleBlock = true) (hne : doc ≠ []) :
    PdfExport.calculatePageBreaks (DomElem.mk "div" [] "" (doc.map render))
        = livePageMembership doc ∧
    (livePageMembership doc).length = (Tiptap.calculatePageBreaks doc).pageCount := by
  have hfold := pages_lockstep doc ⟨[], [], 0, 0⟩ hs (by simp)
  constructor
  · simp only [PdfExport.calculatePageBreaks, livePageMembership, DomElem.children]
    rw [hfold]
  · obtain ⟨d, ds, rfl⟩ : ∃ d ds, doc = d :: ds := by
      cases doc with
      | nil => exact absurd rfl hne
      | cons d ds => exact ⟨d, ds, rfl⟩
    have hcp := live_currentPage_ne_nil ds ⟨[], [], 0, 0⟩ d
    have hpc := live_pages_pagecount (d :: ds) ⟨[], [], 0, 0⟩ ⟨[], 0, 1, 0⟩ rfl (by simp)
    simp only [livePageMembership, Tiptap.calculatePageBreaks]
    rw [if_pos (List.length_pos.mpr hcp)]
    simp only [List.length_append, List.length_cons, List.length_nil]
    omega

/--
C2 (witness): on a heading, a paragraph and a horizontal rule the export
pipeline reproduces the live page membership exactly.
-/
theorem c2_export_matches_live_witness :
    c2wdoc.all isSimpleBlock = true ∧
    (PdfExport.calculatePageBreaks (DomElem.mk "div" [] "" (c2wdoc.map render))
        = livePageMembership c2wdoc ∧
    (livePageMembership c2wdoc).length = (Tiptap.calculatePageBreaks c2wdoc).pageCount) := by
  exact ⟨by decide,
    c2_export_matches_live_on_simple_blocks c2wdoc (by decide) (by simp [c2wdoc])⟩

set_option maxRecDepth 8000 in
/--
C2 (counterexample): the export estimator does not agree with the live
Height Estimator on every block type. A blockquote holding one empty
paragraph is charged 32 + 44 = 76 by the live estimator but a flat 60 by the
export estimator; on 21 empty paragraphs followed by such a blockquote
(924 + 76 = 1000 > 995 live, 924 + 60 = 984 ≤ 995 export) the live
pagination reports two pages while the export assigns every block to a
single page, so the export PageAssignment does not agree with the live page
membership.
-/
theorem c2_export_estimator_diverges :
    Tiptap.estimateNodeHeight (PMNode.blockquote [PMNode.paragraph ""]) = 76 ∧
    PdfExport.estimateNodeHeight (render (PMNode.blockquote [PMNode.paragraph ""])) = 60 ∧
    (Tiptap.calculatePageBreaks c2doc).pageCount = 2 ∧
    (PdfExport.calculatePageBreaks (DomElem.mk "div" [] "" (c2doc.map render))).length = 1 := by
  decide

/--
C7: during PDF export a rasterization failure on a single page is caught
(and logged) and does not abort the export: whatever the pattern of
`html2canvas` failures, the export still saves a file under the requested
name, the saved document still has one entry per computed page, and exactly
the pages whose rasterization succeeded carry an image — a failed page
merely omits its image.
-/
theorem c7_page_failures_do_not_abort_export (el : DomElem)
    (opts : PdfExport.PDFExportOptions) (ok : Nat → Bool)
    (hne : (el.children.filter fun c => !(c.classes.contains "pm-page-break-widget")) ≠ []) :
    (PdfExport.exportToPDF (some el) opts ok).savedFilename
        = some (opts.filename.getD "document.pdf") ∧
    ((PdfExport.exportToPDF (some el) opts ok).savedPages.getD []).length
        = (PdfExport.calculatePageBreaks el).length ∧
    ((PdfExport.exportToPDF (some el) opts ok).savedPages.getD []).map Option.isSome
        = (List.range (PdfExport.calculatePageBreaks el).length).map ok := by
  have h0 : ¬ ((el.children.filter
      fun c => !(c.classes.contains "pm-page-break-widget")).length = 0) := by
    simpa [List.length_eq_zero] using hne
  refine ⟨?_, ?_, ?_⟩
  · simp only [PdfExport.exportToPDF]
    rw [if_neg h0]
    rfl
  · simp only [PdfExport.exportToPDF]
    rw [if_neg h0]
    simp [PdfExport.ExportOutcome.savedPages]
  · simp only [PdfExport.exportToPDF]
    rw [if_neg h0]
    simp only [PdfExport.ExportOutcome.savedPages, Option.getD_some, List.map_map]
    apply List.map_congr_left
    intro i hi
    by_cases hoki : ok i <;> simp [hoki]

/--
C7 (witness): exporting a one-paragraph surface with an oracle on which
every page's rasterization throws still saves `document.pdf` with one
(image-less) page.
-/
theorem c7_export_continues_witness :
    0 < (cElOneParagraph.children.filter
        fun c => !(c.classes.contains "pm-page-break-widget")).length ∧
    ((PdfExport.exportToPDF (some cElOneParagraph) {} okNone).savedFilename
        = some (({} : PdfExport.PDFExportOptions).filename.getD "document.pdf") ∧
    ((PdfExport.exportToPDF (some cElOneParagraph) {} okNone).savedPages.getD []).length
        = (PdfExport.calculatePageBreaks cElOneParagraph).length ∧
    ((PdfExport.exportToPDF (some cElOneParagraph) {} okNone).savedPages.getD []).map
        Option.isSome
        = (List.range (PdfExport.calculatePageBreaks cElOneParagraph).length).map okNone) :=
  ⟨by decide, c7_page_failures_do_not_abort_export cElOneParagraph {} okNone
    (List.length_pos.mp (by decide))⟩

/--
C8 (amended): the `quality` option is not validated or clamped: whatever its
value, it is passed through unchanged as the `html2canvas` rendering scale of
every successfully captured page; the call is not rejected (the export still
saves a file), and an omitted `quality` defaults to 2.
-/
theorem c8_quality_passed_through_with_default_two (el : DomElem)
    (opts : PdfExport.PDFExportOptions) (ok : Nat → Bool) (j : Nat)
    (hne : (el.children.filter fun c => !(c.classes.contains "pm-page-break-widget")) ≠ [])
    (hj : j < (PdfExport.calculatePageBreaks el).length)
    (hok : ok j = true) :
    (PdfExport.exportToPDF (some el) opts ok).savedFilename
        = some (opts.filename.getD "document.pdf") ∧
    Option.map PdfExport.RenderedPage.scale
        (((PdfExport.exportToPDF (some el) opts ok).savedPages.getD []).getD j none)
      = some (opts.quality.getD 2) := by
  have h0 : ¬ ((el.children.filter
      fun c => !(c.classes.contains "pm-page-break-widget")).length = 0) := by
    simpa [List.length_eq_zero] using hne
  refine ⟨?_, ?_⟩
  · simp only [PdfExport.exportToPDF]
    rw [if_neg h0]
    rfl
  · simp only [PdfExport.exportToPDF]
    rw [if_neg h0]
    simp only [PdfExport.ExportOutcome.savedPages, Option.getD_some]
    rw [List.getD_eq_getElem?_getD, List.getElem?_map, List.getElem?_range hj]
    simp [hok]

/--
C8 (witness): with `quality` omitted the page is captured at the default
scale 2, and the export saves the default `document.pdf`.
-/
theorem c8_default_quality_witness :
    0 < (cElOneParagraph.children.filter
        fun c => !(c.classes.contains "pm-page-break-widget")).length ∧
    0 < (PdfExport.calculatePageBreaks cElOneParagraph).length ∧
    okAll 0 = true ∧
    ((PdfExport.exportToPDF (some cElOneParagraph) {} okAll).savedFilename
        = some (({} : PdfExport.PDFExportOptions).filename.getD "document.pdf") ∧
    Option.map PdfExport.RenderedPage.scale
        (((PdfExport.exportToPDF (some cElOneParagraph) {} okAll).savedPages.getD []).getD 0 none)
      = some (({} : PdfExport.PDFExportOptions).quality.getD 2)) :=
  ⟨by decide, by decide, by decide,
    c8_quality_passed_through_with_default_two cElOneParagraph {} okAll 0
      (List.length_pos.mp (by decide)) (by decide) (by decide)⟩

/--
C8 (counterexample): `quality = 7`, outside the documented 1-4 range, is used
directly as the rendering scale — the page is captured at scale 7, not
clamped to 4: `exportToPDF` performs no validation or clamping of `quality`.
-/
theorem c8_quality_not_clamped_counterexample :
    Option.map PdfExport.RenderedPage.scale
        (((PdfExport.exportToPDF (some cElOneParagraph) c8opts okAll).savedPages.getD
          []).getD 0 none)
      = some 7 ∧
    ¬ ((7 : Int) ≤ 4) := by decide

/--
C10: when the editor content element is not found, or when it contains no
children other than `pm-page-break-widget` decorations, `exportToPDF`
returns normally before any PDF document is created — nothing is saved, so
no empty one-page PDF is produced.
-/
theorem c10_no_pdf_for_empty_content (opts : PdfExport.PDFExportOptions)
    (ok : Nat → Bool) (el : DomElem)
    (hempty : (el.children.filter
      fun c => !(c.classes.contains "pm-page-break-widget")).length = 0) :
    PdfExport.exportToPDF (some el) opts ok = PdfExport.ExportOutcome.noFile ∧
    PdfExport.exportToPDF none opts ok = PdfExport.ExportOutcome.noFile := by
  constructor
  · simp only [PdfExport.exportToPDF]
    rw [if_pos hempty]
  · rfl

/--
C10 (witness): a surface whose only child is a page-break widget decoration
produces no file, and a missing content element produces no file.
-/
theorem c10_no_pdf_witness :
    (c10el.children.filter
      fun c => !(c.classes.contains "pm-page-break-widget")).length = 0 ∧
    (PdfExport.exportToPDF (some c10el) {} okAll = PdfExport.ExportOutcome.noFile ∧
     PdfExport.exportToPDF none {} okAll = PdfExport.ExportOutcome.noFile) :=
  ⟨by decide, c10_no_pdf_for_empty_content {} okAll c10el (by decide)⟩
